import Mathlib

/-!
# Verification of the DS4 wire-protocol codec (DS4Protocol.cpp)

Shallow embedding of `src/Sources/DS4Driver/DS4Protocol.cpp`:
the USB input-report parser, the output-report builder, the calibration
record parser and the IMU calibration engine.

Modelling choices:
* A report buffer is a function `Nat → Nat` together with an explicit
  `length : Nat` (mirroring the C `const uint8_t *data, uint32_t length`
  pair).  Every read goes through `rd`, which truncates to a byte
  (`% 256`), exactly as the C reads of `uint8_t` cells do.
* `int16_t` values are `Int` in the two's-complement range produced by
  `readInt16LE`; the C widening casts to `int32_t` are exact on that
  range, so Lean's unbounded `Int` arithmetic coincides with the C
  `int32_t` arithmetic on every value the code can produce.
* `double` is modelled as `ℚ`.  Every integer the code converts to
  `double` fits in well under 53 bits, so the conversions are exact and
  the only approximation in the C code is the final `double` division;
  the rational model is its exact counterpart.
* The C parse functions return `bool` and report failure through two
  separate early-return guards; the embedding returns
  `Except DS4ParseError _` with the constructor recording which guard
  rejected the buffer, and also threads the caller-supplied out-state so
  that (non-)mutation on failure is visible in the model.
-/

deriving instance DecidableEq for Except

/-- Byte read from a report buffer: the C code reads `uint8_t` cells, so
every access is truncated to a byte. -/
def rd (buf : Nat → Nat) (i : Nat) : Nat := buf i % 256

/-- `readUInt16LE` from DS4Protocol.cpp: little-endian unsigned 16-bit. -/
def readUInt16LE (buf : Nat → Nat) (o : Nat) : Nat :=
  rd buf o ||| (rd buf (o + 1) <<< 8)

/-- `readInt16LE` from DS4Protocol.cpp: the combined 16-bit value cast to
`int16_t` (two's complement reinterpretation). -/
def readInt16LE (buf : Nat → Nat) (o : Nat) : Int :=
  let u := readUInt16LE buf o
  if u < 32768 then (u : Int) else (u : Int) - 65536

/-- `DS4DPadDirection` (DS4Protocol.h): nine-valued enum, raw values 0–8. -/
inductive DS4DPadDirection where
  | north | northEast | east | southEast
  | south | southWest | west | northWest
  | neutral
  deriving DecidableEq, Repr

/-- Numeric value of each `DS4DPadDirection` enumerator in DS4Protocol.h. -/
def DS4DPadDirection.toNat : DS4DPadDirection → Nat
  | .north => 0
  | .northEast => 1
  | .east => 2
  | .southEast => 3
  | .south => 4
  | .southWest => 5
  | .west => 6
  | .northWest => 7
  | .neutral => 8

/-- The C cast `(DS4DPadDirection)dpadRaw` for raw values 0–8 (the parser
only applies it to values ≤ 7). -/
def DS4DPadDirection.ofRaw : Nat → DS4DPadDirection
  | 0 => .north
  | 1 => .northEast
  | 2 => .east
  | 3 => .southEast
  | 4 => .south
  | 5 => .southWest
  | 6 => .west
  | 7 => .northWest
  | _ => .neutral

/-- `DS4StickState` (DS4Protocol.h). -/
structure DS4StickState where
  x : Nat
  y : Nat
  deriving DecidableEq, Repr

/-- `DS4Buttons` (DS4Protocol.h): 14 digital buttons. -/
structure DS4Buttons where
  square : Bool
  cross : Bool
  circle : Bool
  triangle : Bool
  l1 : Bool
  r1 : Bool
  l2 : Bool
  r2 : Bool
  share : Bool
  options : Bool
  l3 : Bool
  r3 : Bool
  ps : Bool
  touchpadClick : Bool
  deriving DecidableEq, Repr

/-- `DS4TouchFinger` (DS4Protocol.h). -/
structure DS4TouchFinger where
  active : Bool
  trackingID : Nat
  x : Nat
  y : Nat
  deriving DecidableEq, Repr

/-- `DS4TouchpadState`: the parser in DS4Protocol.cpp populates a packet
count, a packet counter and the two finger records. -/
structure DS4TouchpadState where
  touch0 : DS4TouchFinger
  touch1 : DS4TouchFinger
  packetCount : Nat
  packetCounter : Nat
  deriving DecidableEq, Repr

/-- `DS4IMUState` (DS4Protocol.h): raw signed 16-bit samples. -/
structure DS4IMUState where
  gyroPitch : Int
  gyroYaw : Int
  gyroRoll : Int
  accelX : Int
  accelY : Int
  accelZ : Int
  deriving DecidableEq, Repr

/-- `DS4BatteryState` (DS4Protocol.h). -/
structure DS4BatteryState where
  level : Nat
  cableConnected : Bool
  headphones : Bool
  microphone : Bool
  deriving DecidableEq, Repr

/-- `DS4InputState` (DS4Protocol.h). -/
structure DS4InputState where
  leftStick : DS4StickState
  rightStick : DS4StickState
  dpad : DS4DPadDirection
  buttons : DS4Buttons
  l2Trigger : Nat
  r2Trigger : Nat
  touchpad : DS4TouchpadState
  imu : DS4IMUState
  battery : DS4BatteryState
  timestamp : Nat
  frameCounter : Nat
  deriving DecidableEq, Repr

/-- `DS4OutputState` (DS4Protocol.h). -/
structure DS4OutputState where
  rumbleHeavy : Nat
  rumbleLight : Nat
  ledRed : Nat
  ledGreen : Nat
  ledBlue : Nat
  flashOn : Nat
  flashOff : Nat
  deriving DecidableEq, Repr

/-- The value written by `ds4_input_state_init` (DS4Protocol.cpp lines
152–159): zero-fill, then sticks centered at 128/128 and dpad Neutral. -/
def ds4_input_state_init : DS4InputState :=
  { leftStick := { x := 128, y := 128 }
    rightStick := { x := 128, y := 128 }
    dpad := .neutral
    buttons :=
      { square := false, cross := false, circle := false, triangle := false
        l1 := false, r1 := false, l2 := false, r2 := false
        share := false, options := false, l3 := false, r3 := false
        ps := false, touchpadClick := false }
    l2Trigger := 0
    r2Trigger := 0
    touchpad :=
      { touch0 := { active := false, trackingID := 0, x := 0, y := 0 }
        touch1 := { active := false, trackingID := 0, x := 0, y := 0 }
        packetCount := 0
        packetCounter := 0 }
    imu :=
      { gyroPitch := 0, gyroYaw := 0, gyroRoll := 0
        accelX := 0, accelY := 0, accelZ := 0 }
    battery :=
      { level := 0, cableConnected := false, headphones := false
        microphone := false }
    timestamp := 0
    frameCounter := 0 }

/-- `parseControllerState` (DS4Protocol.cpp lines 27–114): every field of
the state is assigned from the buffer, so the embedding builds the state
as a fresh value.  `o` is the data offset (1 for USB). -/
def parseControllerState (buf : Nat → Nat) (o : Nat) : DS4InputState :=
  { leftStick := { x := rd buf (o + 0), y := rd buf (o + 1) }
    rightStick := { x := rd buf (o + 2), y := rd buf (o + 3) }
    dpad :=
      if rd buf (o + 4) &&& 0x0F ≤ 7
      then DS4DPadDirection.ofRaw (rd buf (o + 4) &&& 0x0F)
      else .neutral
    buttons :=
      { square := rd buf (o + 4) &&& 0x10 != 0
        cross := rd buf (o + 4) &&& 0x20 != 0
        circle := rd buf (o + 4) &&& 0x40 != 0
        triangle := rd buf (o + 4) &&& 0x80 != 0
        l1 := rd buf (o + 5) &&& 0x01 != 0
        r1 := rd buf (o + 5) &&& 0x02 != 0
        l2 := rd buf (o + 5) &&& 0x04 != 0
        r2 := rd buf (o + 5) &&& 0x08 != 0
        share := rd buf (o + 5) &&& 0x10 != 0
        options := rd buf (o + 5) &&& 0x20 != 0
        l3 := rd buf (o + 5) &&& 0x40 != 0
        r3 := rd buf (o + 5) &&& 0x80 != 0
        ps := rd buf (o + 6) &&& 0x01 != 0
        touchpadClick := rd buf (o + 6) &&& 0x02 != 0 }
    l2Trigger := rd buf (o + 7)
    r2Trigger := rd buf (o + 8)
    touchpad :=
      { touch0 :=
          { active := rd buf (o + 34) &&& 0x80 == 0
            trackingID := rd buf (o + 34) &&& 0x7F
            x := rd buf (o + 35) ||| ((rd buf (o + 36) &&& 0x0F) <<< 8)
            y := (rd buf (o + 36) >>> 4) ||| (rd buf (o + 37) <<< 4) }
        touch1 :=
          { active := rd buf (o + 38) &&& 0x80 == 0
            trackingID := rd buf (o + 38) &&& 0x7F
            x := rd buf (o + 39) ||| ((rd buf (o + 40) &&& 0x0F) <<< 8)
            y := (rd buf (o + 40) >>> 4) ||| (rd buf (o + 41) <<< 4) }
        packetCount := rd buf (o + 32)
        packetCounter := rd buf (o + 33) }
    imu :=
      { gyroPitch := readInt16LE buf (o + 12)
        gyroYaw := readInt16LE buf (o + 14)
        gyroRoll := readInt16LE buf (o + 16)
        accelX := readInt16LE buf (o + 18)
        accelY := readInt16LE buf (o + 20)
        accelZ := readInt16LE buf (o + 22) }
    battery :=
      { level := rd buf (o + 29) &&& 0x0F
        cableConnected := rd buf (o + 29) &&& 0x10 != 0
        headphones := rd buf (o + 29) &&& 0x20 != 0
        microphone := rd buf (o + 29) &&& 0x40 != 0 }
    timestamp := readUInt16LE buf (o + 9)
    frameCounter := (rd buf (o + 6) &&& 0xFC) >>> 2 }

/-- Failure kinds of the decoders.  The C functions return `bool`; the
constructor records which early-return guard rejected the buffer (length
guard vs. report-ID guard), matching the error taxonomy of the design
documentation. -/
inductive DS4ParseError where
  | tooShort
  | unexpectedReportId
  deriving DecidableEq, Repr

/-- `ds4_parse_usb_input_report` (DS4Protocol.cpp lines 118–133).  The
embedding threads the caller-supplied `outState`: the C code writes
through `outState` only after both guards pass, so on failure the second
component is the unchanged input state. -/
def ds4_parse_usb_input_report (buf : Nat → Nat) (length : Nat)
    (outState : DS4InputState) :
    Except DS4ParseError DS4InputState × DS4InputState :=
  if length < 64 then (.error .tooShort, outState)
  else if rd buf 0 ≠ 0x01 then (.error .unexpectedReportId, outState)
  else (.ok (parseControllerState buf 1), parseControllerState buf 1)

/-- `ds4_build_usb_output_report` (DS4Protocol.cpp lines 135–150):
zero-fill 32 bytes, then the indexed stores, in source order. -/
def ds4_build_usb_output_report (state : DS4OutputState) : List Nat :=
  (((((((((((List.replicate 32 0).set 0 0x05).set 1 0x07).set 2
    0x04).set 4 state.rumbleLight).set 5 state.rumbleHeavy).set 6
    state.ledRed).set 7 state.ledGreen).set 8 state.ledBlue).set 9
    state.flashOn).set 10 state.flashOff)

/-- `DS4CalibrationData`: field set taken from the assignments in
`ds4_parse_usb_calibration` (DS4Protocol.cpp lines 184–219); all sensor
fields are `int16_t` values. -/
structure DS4CalibrationData where
  gyroPitchBias : Int
  gyroYawBias : Int
  gyroRollBias : Int
  gyroPitchPlus : Int
  gyroPitchMinus : Int
  gyroYawPlus : Int
  gyroYawMinus : Int
  gyroRollPlus : Int
  gyroRollMinus : Int
  gyroSpeedPlus : Int
  gyroSpeedMinus : Int
  accelXPlus : Int
  accelXMinus : Int
  accelYPlus : Int
  accelYMinus : Int
  accelZPlus : Int
  accelZMinus : Int
  isValid : Bool
  deriving DecidableEq, Repr

/-- `ds4_calibration_data_init` (DS4Protocol.cpp lines 167–170):
zero-fill with `isValid = false`. -/
def ds4_calibration_data_init : DS4CalibrationData :=
  { gyroPitchBias := 0, gyroYawBias := 0, gyroRollBias := 0
    gyroPitchPlus := 0, gyroPitchMinus := 0
    gyroYawPlus := 0, gyroYawMinus := 0
    gyroRollPlus := 0, gyroRollMinus := 0
    gyroSpeedPlus := 0, gyroSpeedMinus := 0
    accelXPlus := 0, accelXMinus := 0
    accelYPlus := 0, accelYMinus := 0
    accelZPlus := 0, accelZMinus := 0
    isValid := false }

/-- Modelled from the spec: the constant `DS4_CALIBRATION_REPORT_SIZE` is
used by DS4Protocol.cpp but its definition is not in the header under
src/; the design documentation fixes the calibration feature report at
37 bytes (`length < 37` fails with TooShort). -/
def DS4_CALIBRATION_REPORT_SIZE : Nat := 37

/-- The record built by the body of `ds4_parse_usb_calibration`
(DS4Protocol.cpp lines 184–219) once both guards have passed: the
sixteen little-endian reads plus the six-pair validity conjunction
(computed on exact integers, as the C `int32_t` widening makes the
subtractions exact). -/
def parseCalibrationFields (buf : Nat → Nat) : DS4CalibrationData :=
  let c : DS4CalibrationData :=
    { gyroPitchBias := readInt16LE buf 1
      gyroYawBias := readInt16LE buf 3
      gyroRollBias := readInt16LE buf 5
      gyroPitchPlus := readInt16LE buf 7
      gyroPitchMinus := readInt16LE buf 9
      gyroYawPlus := readInt16LE buf 11
      gyroYawMinus := readInt16LE buf 13
      gyroRollPlus := readInt16LE buf 15
      gyroRollMinus := readInt16LE buf 17
      gyroSpeedPlus := readInt16LE buf 19
      gyroSpeedMinus := readInt16LE buf 21
      accelXPlus := readInt16LE buf 23
      accelXMinus := readInt16LE buf 25
      accelYPlus := readInt16LE buf 27
      accelYMinus := readInt16LE buf 29
      accelZPlus := readInt16LE buf 31
      accelZMinus := readInt16LE buf 33
      isValid := false }
  { c with isValid :=
      c.gyroPitchPlus - c.gyroPitchMinus != 0 &&
      c.gyroYawPlus - c.gyroYawMinus != 0 &&
      c.gyroRollPlus - c.gyroRollMinus != 0 &&
      c.accelXPlus - c.accelXMinus != 0 &&
      c.accelYPlus - c.accelYMinus != 0 &&
      c.accelZPlus - c.accelZMinus != 0 }

/-- `ds4_parse_usb_calibration` (DS4Protocol.cpp lines 172–222), with the
caller-supplied record threaded as in `ds4_parse_usb_input_report`. -/
def ds4_parse_usb_calibration (buf : Nat → Nat) (length : Nat)
    (outCal : DS4CalibrationData) :
    Except DS4ParseError DS4CalibrationData × DS4CalibrationData :=
  if length < DS4_CALIBRATION_REPORT_SIZE then (.error .tooShort, outCal)
  else if rd buf 0 ≠ 0x02 then (.error .unexpectedReportId, outCal)
  else (.ok (parseCalibrationFields buf), parseCalibrationFields buf)

/-- `DS4CalibratedIMU`: six `double` fields, modelled as exact rationals. -/
structure DS4CalibratedIMU where
  gyroPitchDPS : ℚ
  gyroYawDPS : ℚ
  gyroRollDPS : ℚ
  accelXG : ℚ
  accelYG : ℚ
  accelZG : ℚ
  deriving DecidableEq, Repr

/-- `calibrateGyroAxis` (DS4Protocol.cpp lines 226–236):
`(raw - bias) * (speedPlus + speedMinus) / abs(plus - minus)` with the
integer work done in (exact) `int32_t` width and a zero-denominator guard
returning the raw value. -/
def calibrateGyroAxis (raw bias plus minus speedPlus speedMinus : Int) : ℚ :=
  let denom : Int := plus - minus
  if denom = 0 then (raw : ℚ)
  else ((raw - bias : Int) : ℚ) * ((speedPlus + speedMinus : Int) : ℚ) /
    ((|denom| : Int) : ℚ)

/-- `calibrateAccelAxis` (DS4Protocol.cpp lines 240–248):
`(raw - center) / |range / 2.0|` with `center = (plus + minus) / 2` in
C integer division (truncation toward zero) and a zero-range guard. -/
def calibrateAccelAxis (raw plus minus : Int) : ℚ :=
  let range : Int := plus - minus
  if range = 0 then (raw : ℚ)
  else
    let center : Int := Int.tdiv (plus + minus) 2
    ((raw - center : Int) : ℚ) / |((range : ℚ) / 2)|

/-- `ds4_calibrate_imu` (DS4Protocol.cpp lines 250–292): nominal BMI055
factors when calibration is invalid, per-axis calibration otherwise. -/
def ds4_calibrate_imu (raw : DS4IMUState) (cal : DS4CalibrationData) :
    DS4CalibratedIMU :=
  if !cal.isValid then
    { gyroPitchDPS := (raw.gyroPitch : ℚ) / (164 / 10)
      gyroYawDPS := (raw.gyroYaw : ℚ) / (164 / 10)
      gyroRollDPS := (raw.gyroRoll : ℚ) / (164 / 10)
      accelXG := (raw.accelX : ℚ) / 8192
      accelYG := (raw.accelY : ℚ) / 8192
      accelZG := (raw.accelZ : ℚ) / 8192 }
  else
    { gyroPitchDPS := calibrateGyroAxis raw.gyroPitch cal.gyroPitchBias
        cal.gyroPitchPlus cal.gyroPitchMinus cal.gyroSpeedPlus cal.gyroSpeedMinus
      gyroYawDPS := calibrateGyroAxis raw.gyroYaw cal.gyroYawBias
        cal.gyroYawPlus cal.gyroYawMinus cal.gyroSpeedPlus cal.gyroSpeedMinus
      gyroRollDPS := calibrateGyroAxis raw.gyroRoll cal.gyroRollBias
        cal.gyroRollPlus cal.gyroRollMinus cal.gyroSpeedPlus cal.gyroSpeedMinus
      accelXG := calibrateAccelAxis raw.accelX cal.accelXPlus cal.accelXMinus
      accelYG := calibrateAccelAxis raw.accelY cal.accelYPlus cal.accelYMinus
      accelZG := calibrateAccelAxis raw.accelZ cal.accelZPlus cal.accelZMinus }

/-!
## Theorems
-/

/-- The §8 scenario buffer: all zero bytes except byte 0 = 0x01 and
bytes 1–4 = 128. -/
def scenarioBuf : Nat → Nat := fun i =>
  if i = 0 then 0x01 else if i ≤ 4 then 128 else 0

/-- The state the scenario buffer actually decodes to: the default state
with dpad North (raw nibble 0 is a valid direction, not Neutral) and both
touch fingers active (raw bit 7 clear means touching). -/
def scenarioDecodedState : DS4InputState :=
  { ds4_input_state_init with
      dpad := .north
      touchpad := { ds4_input_state_init.touchpad with
        touch0 := { ds4_input_state_init.touchpad.touch0 with active := true }
        touch1 := { ds4_input_state_init.touchpad.touch1 with active := true } } }

/-- C1 (counterexample): on the scenario buffer (all zero except byte 0 =
0x01 and bytes 1–4 = 128) the parse succeeds, but the decoded state is
NOT equal to the `ds4_input_state_init` default state: the buttons-byte
low nibble 0 decodes to dpad North (not Neutral), and the cleared bit 7
of the touch bytes decodes both touch fingers as active. -/
theorem c1_scenario_decode_ne_init :
    (ds4_parse_usb_input_report scenarioBuf 64 ds4_input_state_init).1 =
      .ok (parseControllerState scenarioBuf 1) ∧
    parseControllerState scenarioBuf 1 ≠ ds4_input_state_init := by
  constructor
  · decide
  · decide

/-- C1 (amended): on the scenario buffer the parse succeeds and the
decoded state equals the `ds4_input_state_init` default state in every
field except three: dpad is North instead of Neutral, and both touch
fingers read as active instead of inactive. -/
theorem c1_scenario_decode_amended :
    ds4_parse_usb_input_report scenarioBuf 64 ds4_input_state_init =
      (.ok scenarioDecodedState, scenarioDecodedState) := by
  decide

/-- C2: for every buffer, length and caller state, the input-report
decoder fails at the TooShort guard when `length < 64`, fails at the
UnexpectedReportId guard when `length ≥ 64` and byte 0 ≠ 0x01, and
otherwise succeeds with the fully populated parsed state; on both
failures the caller-supplied state comes back completely unchanged. -/
theorem c2_parse_input_contract (buf : Nat → Nat) (len : Nat)
    (st : DS4InputState) :
    (len < 64 →
      ds4_parse_usb_input_report buf len st = (.error .tooShort, st)) ∧
    (64 ≤ len → rd buf 0 ≠ 0x01 →
      ds4_parse_usb_input_report buf len st =
        (.error .unexpectedReportId, st)) ∧
    (64 ≤ len → rd buf 0 = 0x01 →
      ds4_parse_usb_input_report buf len st =
        (.ok (parseControllerState buf 1), parseControllerState buf 1)) := by
  refine ⟨fun h1 => ?_, fun h1 h2 => ?_, fun h1 h2 => ?_⟩
  · simp [ds4_parse_usb_input_report, h1]
  · simp [ds4_parse_usb_input_report, Nat.not_lt.2 h1, h2]
  · simp [ds4_parse_usb_input_report, Nat.not_lt.2 h1, h2]

/-- C2 witness: the contract evaluated on concrete inputs — a 10-byte
buffer is rejected as too short with the caller state untouched. -/
theorem c2_parse_input_contract_witness :
    ds4_parse_usb_input_report scenarioBuf 10 ds4_input_state_init =
      (.error .tooShort, ds4_input_state_init) :=
  (c2_parse_input_contract scenarioBuf 10 ds4_input_state_init).1
    (by decide)

/-- C3: the output-report builder always produces a 32-byte report with
byte 0 = 0x05, byte 1 = 0x07, byte 2 = 0x04, byte 3 = 0 and bytes 11–31
zero, and re-reading bytes 4–10 reproduces exactly the rumbleLight
(weak, first), rumbleHeavy (strong), ledRed, ledGreen, ledBlue, flashOn
and flashOff values supplied. -/
theorem c3_output_report_layout (s : DS4OutputState) :
    (ds4_build_usb_output_report s).length = 32 ∧
    (ds4_build_usb_output_report s).getD 0 0 = 0x05 ∧
    (ds4_build_usb_output_report s).getD 1 0 = 0x07 ∧
    (ds4_build_usb_output_report s).getD 2 0 = 0x04 ∧
    (ds4_build_usb_output_report s).getD 3 0 = 0 ∧
    (∀ i, 11 ≤ i → i ≤ 31 → (ds4_build_usb_output_report s).getD i 0 = 0) ∧
    (ds4_build_usb_output_report s).getD 4 0 = s.rumbleLight ∧
    (ds4_build_usb_output_report s).getD 5 0 = s.rumbleHeavy ∧
    (ds4_build_usb_output_report s).getD 6 0 = s.ledRed ∧
    (ds4_build_usb_output_report s).getD 7 0 = s.ledGreen ∧
    (ds4_build_usb_output_report s).getD 8 0 = s.ledBlue ∧
    (ds4_build_usb_output_report s).getD 9 0 = s.flashOn ∧
    (ds4_build_usb_output_report s).getD 10 0 = s.flashOff := by
  refine ⟨rfl, rfl, rfl, rfl, rfl, fun i h1 h2 => ?_,
    rfl, rfl, rfl, rfl, rfl, rfl, rfl⟩
  interval_cases i <;> rfl

/-- C3 witness: the layout at a concrete output state — byte 4 carries
the weak-motor value and byte 10 the flash-off value. -/
theorem c3_output_report_layout_witness :
    (ds4_build_usb_output_report ⟨1, 2, 3, 4, 5, 6, 7⟩).getD 4 0 = 2 ∧
    (ds4_build_usb_output_report ⟨1, 2, 3, 4, 5, 6, 7⟩).getD 10 0 = 7 ∧
    (ds4_build_usb_output_report ⟨1, 2, 3, 4, 5, 6, 7⟩).getD 20 0 = 0 :=
  ⟨(c3_output_report_layout ⟨1, 2, 3, 4, 5, 6, 7⟩).2.2.2.2.2.2.1,
   (c3_output_report_layout ⟨1, 2, 3, 4, 5, 6, 7⟩).2.2.2.2.2.2.2.2.2.2.2.2,
   (c3_output_report_layout ⟨1, 2, 3, 4, 5, 6, 7⟩).2.2.2.2.2.1 20
     (by decide) (by decide)⟩

/-- C4: every calibration buffer of length ≥ 37 whose byte 0 is 0x02
parses successfully, and the returned record's isValid flag is true
exactly when all six plus/minus pair differences (computed on exact
integers, as the C int32 widening makes the int16 subtractions exact)
are nonzero; a zero pair still yields success, with the fields
populated and isValid = false. -/
theorem c4_calibration_parse_validity (buf : Nat → Nat) (len : Nat)
    (cal : DS4CalibrationData) (h1 : 37 ≤ len) (h2 : rd buf 0 = 0x02) :
    ds4_parse_usb_calibration buf len cal =
      (.ok (parseCalibrationFields buf), parseCalibrationFields buf) ∧
    ((parseCalibrationFields buf).isValid = true ↔
      (readInt16LE buf 7 - readInt16LE buf 9 ≠ 0 ∧
       readInt16LE buf 11 - readInt16LE buf 13 ≠ 0 ∧
       readInt16LE buf 15 - readInt16LE buf 17 ≠ 0 ∧
       readInt16LE buf 23 - readInt16LE buf 25 ≠ 0 ∧
       readInt16LE buf 27 - readInt16LE buf 29 ≠ 0 ∧
       readInt16LE buf 31 - readInt16LE buf 33 ≠ 0)) := by
  constructor
  · simp [ds4_parse_usb_calibration, DS4_CALIBRATION_REPORT_SIZE,
      Nat.not_lt.2 h1, h2]
  · simp [parseCalibrationFields, Bool.and_eq_true, bne_iff_ne, and_assoc]

/-- C4 witness: the all-zero-payload calibration buffer (byte 0 = 0x02)
parses successfully; its six pair differences are all zero, so the
record comes back with isValid = false. -/
theorem c4_calibration_parse_validity_witness :
    ds4_parse_usb_calibration (fun i => if i = 0 then 0x02 else 0) 37
        ds4_calibration_data_init =
      (.ok (parseCalibrationFields (fun i => if i = 0 then 0x02 else 0)),
       parseCalibrationFields (fun i => if i = 0 then 0x02 else 0)) ∧
    (parseCalibrationFields (fun i => if i = 0 then 0x02 else 0)).isValid
      = false :=
  ⟨(c4_calibration_parse_validity (fun i => if i = 0 then 0x02 else 0) 37
      ds4_calibration_data_init (by decide) (by decide)).1,
   by decide⟩

/-- C5: with valid calibration data, each gyro axis whose plus/minus
difference is nonzero is converted as
`(raw − bias) × (speedPlus + speedMinus) / |plus − minus|`, the integer
work being exact (the C code widens every operand to int32 before the
final division, and Lean's `Int` agrees with int32 on all values an
int16 pair can produce), with the denominator taken in absolute value. -/
theorem c5_gyro_calibration_formula (raw : DS4IMUState)
    (cal : DS4CalibrationData) (hv : cal.isValid = true) :
    (cal.gyroPitchPlus - cal.gyroPitchMinus ≠ 0 →
      (ds4_calibrate_imu raw cal).gyroPitchDPS =
        ((raw.gyroPitch - cal.gyroPitchBias : Int) : ℚ) *
          ((cal.gyroSpeedPlus + cal.gyroSpeedMinus : Int) : ℚ) /
          ((|cal.gyroPitchPlus - cal.gyroPitchMinus| : Int) : ℚ)) ∧
    (cal.gyroYawPlus - cal.gyroYawMinus ≠ 0 →
      (ds4_calibrate_imu raw cal).gyroYawDPS =
        ((raw.gyroYaw - cal.gyroYawBias : Int) : ℚ) *
          ((cal.gyroSpeedPlus + cal.gyroSpeedMinus : Int) : ℚ) /
          ((|cal.gyroYawPlus - cal.gyroYawMinus| : Int) : ℚ)) ∧
    (cal.gyroRollPlus - cal.gyroRollMinus ≠ 0 →
      (ds4_calibrate_imu raw cal).gyroRollDPS =
        ((raw.gyroRoll - cal.gyroRollBias : Int) : ℚ) *
          ((cal.gyroSpeedPlus + cal.gyroSpeedMinus : Int) : ℚ) /
          ((|cal.gyroRollPlus - cal.gyroRollMinus| : Int) : ℚ)) := by
  refine ⟨fun h => ?_, fun h => ?_, fun h => ?_⟩ <;>
    simp [ds4_calibrate_imu, calibrateGyroAxis, hv, h]

/-- C5 witness: a concrete valid calibration record with pitch range
10 − (−10) = 20 and speed references 540 + 540 = 1080 turns a raw pitch
reading of 100 into 100 × 1080 / 20 = 5400. -/
theorem c5_gyro_calibration_formula_witness :
    (ds4_calibrate_imu
        ⟨100, 0, 0, 0, 0, 0⟩
        { gyroPitchBias := 0, gyroYawBias := 0, gyroRollBias := 0
          gyroPitchPlus := 10, gyroPitchMinus := -10
          gyroYawPlus := 10, gyroYawMinus := -10
          gyroRollPlus := 10, gyroRollMinus := -10
          gyroSpeedPlus := 540, gyroSpeedMinus := 540
          accelXPlus := 8192, accelXMinus := -8192
          accelYPlus := 8192, accelYMinus := -8192
          accelZPlus := 8192, accelZMinus := -8192
          isValid := true }).gyroPitchDPS = 5400 := by
  have h := (c5_gyro_calibration_formula
      ⟨100, 0, 0, 0, 0, 0⟩
      { gyroPitchBias := 0, gyroYawBias := 0, gyroRollBias := 0
        gyroPitchPlus := 10, gyroPitchMinus := -10
        gyroYawPlus := 10, gyroYawMinus := -10
        gyroRollPlus := 10, gyroRollMinus := -10
        gyroSpeedPlus := 540, gyroSpeedMinus := 540
        accelXPlus := 8192, accelXMinus := -8192
        accelYPlus := 8192, accelYMinus := -8192
        accelZPlus := 8192, accelZMinus := -8192
        isValid := true } rfl).1 (by decide)
  rw [h]
  norm_num

/-- C6: the calibration engine is total and guarded against zero
denominators: with invalid calibration data every axis uses the fixed
nominal factors (gyro raw / 16.4, accel raw / 8192), and with valid
calibration data any axis whose plus/minus difference is zero returns
its raw value unconverted (the guarded division is never reached, so no
NaN/Inf can arise). -/
theorem c6_calibrate_imu_total_fallback (raw : DS4IMUState)
    (cal : DS4CalibrationData) :
    (cal.isValid = false →
      ds4_calibrate_imu raw cal =
        { gyroPitchDPS := (raw.gyroPitch : ℚ) / (164 / 10)
          gyroYawDPS := (raw.gyroYaw : ℚ) / (164 / 10)
          gyroRollDPS := (raw.gyroRoll : ℚ) / (164 / 10)
          accelXG := (raw.accelX : ℚ) / 8192
          accelYG := (raw.accelY : ℚ) / 8192
          accelZG := (raw.accelZ : ℚ) / 8192 }) ∧
    (cal.isValid = true →
      (cal.gyroPitchPlus - cal.gyroPitchMinus = 0 →
        (ds4_calibrate_imu raw cal).gyroPitchDPS = (raw.gyroPitch : ℚ)) ∧
      (cal.gyroYawPlus - cal.gyroYawMinus = 0 →
        (ds4_calibrate_imu raw cal).gyroYawDPS = (raw.gyroYaw : ℚ)) ∧
      (cal.gyroRollPlus - cal.gyroRollMinus = 0 →
        (ds4_calibrate_imu raw cal).gyroRollDPS = (raw.gyroRoll : ℚ)) ∧
      (cal.accelXPlus - cal.accelXMinus = 0 →
        (ds4_calibrate_imu raw cal).accelXG = (raw.accelX : ℚ)) ∧
      (cal.accelYPlus - cal.accelYMinus = 0 →
        (ds4_calibrate_imu raw cal).accelYG = (raw.accelY : ℚ)) ∧
      (cal.accelZPlus - cal.accelZMinus = 0 →
        (ds4_calibrate_imu raw cal).accelZG = (raw.accelZ : ℚ))) := by
  constructor
  · intro hv
    simp [ds4_calibrate_imu, hv]
  · intro hv
    refine ⟨fun h => ?_, fun h => ?_, fun h => ?_,
      fun h => ?_, fun h => ?_, fun h => ?_⟩ <;>
      simp [ds4_calibrate_imu, calibrateGyroAxis, calibrateAccelAxis, hv, h]

/-- C6 witness: with the default (invalid) calibration record, a raw
gyro pitch of 1640 converts to exactly 100 deg/s and a raw accel X of
8192 to exactly 1 g under the nominal factors. -/
theorem c6_calibrate_imu_total_fallback_witness :
    (ds4_calibrate_imu ⟨1640, 0, 0, 8192, 0, 0⟩
        ds4_calibration_data_init).gyroPitchDPS = 100 ∧
    (ds4_calibrate_imu ⟨1640, 0, 0, 8192, 0, 0⟩
        ds4_calibration_data_init).accelXG = 1 := by
  have h := (c6_calibrate_imu_total_fallback ⟨1640, 0, 0, 8192, 0, 0⟩
      ds4_calibration_data_init).1 rfl
  rw [h]
  constructor <;> norm_num

/-- C7: in every successful decode, the low nibble of the buttons byte
(buffer byte 5) maps 0–7 one-to-one to the eight compass directions in
clockwise order starting at North, and every nibble value ≥ 8 maps to
Neutral. -/
theorem c7_dpad_mapping (buf : Nat → Nat) (len : Nat)
    (st : DS4InputState) (h1 : 64 ≤ len) (h2 : rd buf 0 = 0x01) :
    (rd buf 5 &&& 0x0F = 0 →
      (ds4_parse_usb_input_report buf len st).2.dpad = .north) ∧
    (rd buf 5 &&& 0x0F = 1 →
      (ds4_parse_usb_input_report buf len st).2.dpad = .northEast) ∧
    (rd buf 5 &&& 0x0F = 2 →
      (ds4_parse_usb_input_report buf len st).2.dpad = .east) ∧
    (rd buf 5 &&& 0x0F = 3 →
      (ds4_parse_usb_input_report buf len st).2.dpad = .southEast) ∧
    (rd buf 5 &&& 0x0F = 4 →
      (ds4_parse_usb_input_report buf len st).2.dpad = .south) ∧
    (rd buf 5 &&& 0x0F = 5 →
      (ds4_parse_usb_input_report buf len st).2.dpad = .southWest) ∧
    (rd buf 5 &&& 0x0F = 6 →
      (ds4_parse_usb_input_report buf len st).2.dpad = .west) ∧
    (rd buf 5 &&& 0x0F = 7 →
      (ds4_parse_usb_input_report buf len st).2.dpad = .northWest) ∧
    (8 ≤ rd buf 5 &&& 0x0F →
      (ds4_parse_usb_input_report buf len st).2.dpad = .neutral) := by
  have hp : (ds4_parse_usb_input_report buf len st).2 =
      parseControllerState buf 1 := by
    simp [ds4_parse_usb_input_report, Nat.not_lt.2 h1, h2]
  rw [hp]
  refine ⟨fun h => ?_, fun h => ?_, fun h => ?_, fun h => ?_, fun h => ?_,
    fun h => ?_, fun h => ?_, fun h => ?_, fun h => ?_⟩ <;>
    simp [parseControllerState, h, DS4DPadDirection.ofRaw]
  omega

/-- C7 witness: the scenario buffer has buttons-byte nibble 0, and its
successful decode reports dpad North. -/
theorem c7_dpad_mapping_witness :
    (ds4_parse_usb_input_report scenarioBuf 64
        ds4_input_state_init).2.dpad = DS4DPadDirection.north :=
  (c7_dpad_mapping scenarioBuf 64 ds4_input_state_init
    (by decide) (by decide)).1 (by decide)

/-- C8: for every buffer shorter than the minimum (64 for input reports,
37 for calibration reports) the decode fails at the TooShort guard with
the caller record untouched, and the outcome is identical for any two
buffers of that length whatever their contents — the decoder's result
depends on no byte at all on this path, so in particular on none at or
past the supplied length. -/
theorem c8_short_buffer_no_read (buf buf2 : Nat → Nat) (len : Nat)
    (st : DS4InputState) (cal : DS4CalibrationData) :
    (len < 64 →
      ds4_parse_usb_input_report buf len st = (.error .tooShort, st) ∧
      ds4_parse_usb_input_report buf len st =
        ds4_parse_usb_input_report buf2 len st) ∧
    (len < 37 →
      ds4_parse_usb_calibration buf len cal = (.error .tooShort, cal) ∧
      ds4_parse_usb_calibration buf len cal =
        ds4_parse_usb_calibration buf2 len cal) := by
  constructor
  · intro h
    simp [ds4_parse_usb_input_report, h]
  · intro h
    simp [ds4_parse_usb_calibration, DS4_CALIBRATION_REPORT_SIZE, h]

/-- C8 witness: a 63-byte input report and a 36-byte calibration report
are both rejected as too short, their caller records untouched. -/
theorem c8_short_buffer_no_read_witness :
    ds4_parse_usb_input_report scenarioBuf 63 ds4_input_state_init =
      (.error .tooShort, ds4_input_state_init) ∧
    ds4_parse_usb_calibration scenarioBuf 36 ds4_calibration_data_init =
      (.error .tooShort, ds4_calibration_data_init) :=
  ⟨((c8_short_buffer_no_read scenarioBuf (fun _ => 0) 63
      ds4_input_state_init ds4_calibration_data_init).1 (by decide)).1,
   ((c8_short_buffer_no_read scenarioBuf (fun _ => 0) 36
      ds4_input_state_init ds4_calibration_data_init).2 (by decide)).1⟩

/-- C9: the input-report decoder reads only bytes 0–42: any two buffers
of sufficient length that agree on bytes 0 through 42 produce identical
outcomes and identical decoded states, whatever bytes 43 and beyond
hold. -/
theorem c9_parse_depends_only_on_bytes_0_42 (buf1 buf2 : Nat → Nat)
    (len : Nat) (st : DS4InputState) (_h : 64 ≤ len)
    (hagree : ∀ i, i ≤ 42 → buf1 i = buf2 i) :
    ds4_parse_usb_input_report buf1 len st =
      ds4_parse_usb_input_report buf2 len st := by
  have e : ∀ i, i ≤ 42 → rd buf1 i = rd buf2 i := fun i hi => by
    unfold rd; rw [hagree i hi]
  have hp : parseControllerState buf1 1 = parseControllerState buf2 1 := by
    unfold parseControllerState readInt16LE readUInt16LE
    rw [e (1+0) (by norm_num), e (1+1) (by norm_num), e (1+2) (by norm_num),
        e (1+3) (by norm_num), e (1+4) (by norm_num), e (1+5) (by norm_num),
        e (1+6) (by norm_num), e (1+7) (by norm_num), e (1+8) (by norm_num),
        e (1+9) (by norm_num), e (1+9+1) (by norm_num),
        e (1+12) (by norm_num), e (1+12+1) (by norm_num),
        e (1+14) (by norm_num), e (1+14+1) (by norm_num),
        e (1+16) (by norm_num), e (1+16+1) (by norm_num),
        e (1+18) (by norm_num), e (1+18+1) (by norm_num),
        e (1+20) (by norm_num), e (1+20+1) (by norm_num),
        e (1+22) (by norm_num), e (1+22+1) (by norm_num),
        e (1+29) (by norm_num), e (1+32) (by norm_num),
        e (1+33) (by norm_num), e (1+34) (by norm_num),
        e (1+35) (by norm_num), e (1+36) (by norm_num),
        e (1+37) (by norm_num), e (1+38) (by norm_num),
        e (1+39) (by norm_num), e (1+40) (by norm_num),
        e (1+41) (by norm_num)]
  unfold ds4_parse_usb_input_report
  rw [e 0 (by norm_num), hp]

/-- C9 witness: two concrete 64-byte buffers that agree on bytes 0–42
but differ on every byte from 43 up decode to the same outcome. -/
theorem c9_parse_depends_only_on_bytes_0_42_witness :
    ds4_parse_usb_input_report scenarioBuf 64 ds4_input_state_init =
      ds4_parse_usb_input_report
        (fun i => if i ≤ 42 then scenarioBuf i else 0xFF) 64
        ds4_input_state_init :=
  c9_parse_depends_only_on_bytes_0_42 scenarioBuf
    (fun i => if i ≤ 42 then scenarioBuf i else 0xFF) 64
    ds4_input_state_init (by decide)
    (fun i hi => by simp [hi])

/-- Every byte read is below 256. -/
theorem rd_lt_256 (buf : Nat → Nat) (i : Nat) : rd buf i < 256 :=
  Nat.mod_lt _ (by norm_num)

/-- Bitwise or of two values below 4096 stays below 4096. -/
theorem or_le_4095 {a b : Nat} (ha : a < 4096) (hb : b < 4096) :
    a ||| b ≤ 4095 := by
  have h := Nat.or_lt_two_pow (x := a) (y := b) (n := 12)
    (by norm_num; exact ha) (by norm_num; exact hb)
  norm_num at h
  omega

/-- Every dpad direction has enum value at most 8. -/
theorem dpad_toNat_le_eight (d : DS4DPadDirection) : d.toNat ≤ 8 := by
  cases d <;> simp [DS4DPadDirection.toNat]

/-- The bound invariant of C10: 6-bit frame counter, 7-bit tracking IDs,
4-bit battery level, nine-valued dpad and 12-bit touch coordinates. -/
def ds4StateBounds (r : DS4InputState) : Prop :=
  r.frameCounter ≤ 63 ∧
  r.touchpad.touch0.trackingID ≤ 127 ∧
  r.touchpad.touch1.trackingID ≤ 127 ∧
  r.battery.level ≤ 15 ∧
  r.dpad.toNat ≤ 8 ∧
  r.touchpad.touch0.x ≤ 4095 ∧ r.touchpad.touch0.y ≤ 4095 ∧
  r.touchpad.touch1.x ≤ 4095 ∧ r.touchpad.touch1.y ≤ 4095

/-- The parsed state satisfies the bound invariant for every buffer and
offset: each bounded field is produced by masking or shifting bytes. -/
theorem parseControllerState_bounds (buf : Nat → Nat) (o : Nat) :
    ds4StateBounds (parseControllerState buf o) := by
  refine ⟨?_, Nat.and_le_right, Nat.and_le_right, Nat.and_le_right,
    ?_, ?_, ?_, ?_, ?_⟩
  · show (rd buf (o + 6) &&& 0xFC) >>> 2 ≤ 63
    rw [Nat.shiftRight_eq_div_pow]
    exact le_trans (Nat.div_le_div_right Nat.and_le_right) (by norm_num)
  · exact dpad_toNat_le_eight _
  · show rd buf (o + 35) ||| (rd buf (o + 36) &&& 0x0F) <<< 8 ≤ 4095
    refine or_le_4095 (lt_trans (rd_lt_256 _ _) (by norm_num)) ?_
    rw [Nat.shiftLeft_eq]
    exact lt_of_le_of_lt
      (Nat.mul_le_mul_right _ (Nat.and_le_right (m := 0x0F))) (by norm_num)
  · show (rd buf (o + 36) >>> 4) ||| rd buf (o + 37) <<< 4 ≤ 4095
    refine or_le_4095 ?_ ?_
    · rw [Nat.shiftRight_eq_div_pow]
      exact lt_of_le_of_lt (Nat.div_le_self _ _)
        (lt_trans (rd_lt_256 _ _) (by norm_num))
    · rw [Nat.shiftLeft_eq]
      have h := rd_lt_256 buf (o + 37)
      norm_num
      omega
  · show rd buf (o + 39) ||| (rd buf (o + 40) &&& 0x0F) <<< 8 ≤ 4095
    refine or_le_4095 (lt_trans (rd_lt_256 _ _) (by norm_num)) ?_
    rw [Nat.shiftLeft_eq]
    exact lt_of_le_of_lt
      (Nat.mul_le_mul_right _ (Nat.and_le_right (m := 0x0F))) (by norm_num)
  · show (rd buf (o + 40) >>> 4) ||| rd buf (o + 41) <<< 4 ≤ 4095
    refine or_le_4095 ?_ ?_
    · rw [Nat.shiftRight_eq_div_pow]
      exact lt_of_le_of_lt (Nat.div_le_self _ _)
        (lt_trans (rd_lt_256 _ _) (by norm_num))
    · rw [Nat.shiftLeft_eq]
      have h := rd_lt_256 buf (o + 41)
      norm_num
      omega

/-- C10: the default state and the state produced by every successful
input-report decode satisfy the bound invariant: frameCounter ≤ 63,
both touch tracking IDs ≤ 127, battery level ≤ 15, dpad one of the nine
enum values 0–8, and all four touch coordinates ≤ 4095, whatever the
input bytes. -/
theorem c10_decoded_state_bounds (buf : Nat → Nat) (len : Nat)
    (st r : DS4InputState)
    (hsucc : (ds4_parse_usb_input_report buf len st).1 = .ok r) :
    ds4StateBounds ds4_input_state_init ∧ ds4StateBounds r := by
  refine ⟨by unfold ds4StateBounds; decide, ?_⟩
  have hr : r = parseControllerState buf 1 := by
    by_cases h1 : len < 64
    · simp [ds4_parse_usb_input_report, h1] at hsucc
    · by_cases h2 : rd buf 0 = 0x01
      · simp [ds4_parse_usb_input_report, h1, h2] at hsucc
        exact hsucc.symm
      · simp [ds4_parse_usb_input_report, h1, h2] at hsucc
  rw [hr]
  exact parseControllerState_bounds buf 1

/-- C10 witness: the bound invariant holds for the default state and the
state decoded from the concrete scenario buffer. -/
theorem c10_decoded_state_bounds_witness :
    ds4StateBounds ds4_input_state_init ∧
    ds4StateBounds (parseControllerState scenarioBuf 1) :=
  c10_decoded_state_bounds scenarioBuf 64 ds4_input_state_init
    (parseControllerState scenarioBuf 1) (by decide)
